import Mathlib

/-!
Shallow embedding of the Student Management Dashboard core:
the reducer-driven entity store (`src/context/StudentContext.tsx`),
the validation utilities (`src/utils/validation.ts`), the mock API
(`src/utils/mockApi.ts`) and the debounce hook (`src/hooks/useDebounce.ts`).

JavaScript strings are modelled as lists of characters (`Str`); the
JavaScript string methods used by the code (`trim`, `toLowerCase`,
`includes`) are modelled character-wise.  Timestamps (`Date`) are modelled
as natural numbers (milliseconds); within one synchronous reducer
transition the clock does not advance, so consecutive `new Date()` calls
in the same synchronous block read the same instant.
-/

deriving instance DecidableEq for Except

namespace StudentDashboard

/-- JavaScript strings, modelled as lists of characters. -/
abbrev Str := List Char

/-- Embed a Lean string literal as a character list. -/
def str (s : String) : Str := s.data

/-- The whitespace class used by `String.prototype.trim` and by `\s`
(restricted to the ASCII whitespace characters, which are the only ones
the repository's data ever contains). -/
def jsIsWs (c : Char) : Bool := c = ' ' || c = '\t' || c = '\n' || c = '\r' || c = '\x0c' || c = '\x0b'

/-- Model of `String.prototype.trim`: remove leading and trailing whitespace. -/
def jsTrim (l : Str) : Str :=
  (((l.dropWhile jsIsWs).reverse.dropWhile jsIsWs)).reverse

/-- Model of `String.prototype.toLowerCase`, character-wise. -/
def jsToLower (l : Str) : Str := l.map Char.toLower

/-- Model of `String.prototype.includes`: `sub` occurs contiguously in `hay`.
The empty string is included in every string, as in JavaScript. -/
def jsIncludes (hay sub : Str) : Bool :=
  sub.isPrefixOf hay ||
    match hay with
    | [] => false
    | _ :: t => jsIncludes t sub

/-- The `Student` interface (src/types/index.ts); `Date` timestamps are milliseconds. -/
structure Student where
  id : Str
  name : Str
  email : Str
  courseId : Nat
  profileImage : Option Str := none
  createdAt : Nat
  updatedAt : Nat
deriving DecidableEq, Repr

/-- The draft passed to `addStudent`: `Omit<Student, 'id' | 'createdAt' | 'updatedAt'>`. -/
structure StudentDraft where
  name : Str
  email : Str
  courseId : Nat
  profileImage : Option Str := none
deriving DecidableEq, Repr

/-- The `StudentState` interface (StudentContext.tsx). -/
structure StudentState where
  students : List Student
  searchTerm : Str
  selectedCourseFilter : Option Nat
deriving DecidableEq, Repr

/-- The `StudentAction` type (StudentContext.tsx), the discriminated union of
reducer actions. -/
inductive StudentAction where
  | ADD_STUDENT (payload : Student)
  | UPDATE_STUDENT (payload : Student)
  | DELETE_STUDENT (payload : Str)
  | SET_SEARCH_TERM (payload : Str)
  | SET_COURSE_FILTER (payload : Option Nat)
  | LOAD_STUDENTS (payload : List Student)
deriving DecidableEq, Repr

/-- The `studentReducer` function (StudentContext.tsx): pure `(state, action) -> state`. -/
def studentReducer (state : StudentState) (action : StudentAction) : StudentState :=
  match action with
  | .ADD_STUDENT payload =>
      { state with students := state.students ++ [payload] }
  | .UPDATE_STUDENT payload =>
      { state with students :=
          state.students.map (fun student => if student.id = payload.id then payload else student) }
  | .DELETE_STUDENT payload =>
      { state with students :=
          state.students.filter (fun student => !(student.id = payload : Bool)) }
  | .SET_SEARCH_TERM payload =>
      { state with searchTerm := payload }
  | .SET_COURSE_FILTER payload =>
      { state with selectedCourseFilter := payload }
  | .LOAD_STUDENTS payload =>
      { state with students := payload }

/-- The `initialState` value (StudentContext.tsx). -/
def initialState : StudentState :=
  { students := [], searchTerm := [], selectedCourseFilter := none }

/-- The record built by the `addStudent` helper: the draft plus a freshly
generated id (`crypto.randomUUID()`) and `createdAt = updatedAt = now`
(two consecutive `new Date()` calls in one synchronous block). -/
def newStudent (d : StudentDraft) (freshId : Str) (now : Nat) : Student :=
  { name := d.name, email := d.email, courseId := d.courseId,
    profileImage := d.profileImage,
    id := freshId, createdAt := now, updatedAt := now }

/-- The record built by the `updateStudent` helper before dispatching
`UPDATE_STUDENT`: the input record with `updatedAt` refreshed. -/
def updatedStudent (student : Student) (now : Nat) : Student :=
  { student with updatedAt := now }

/-- The `addStudent` helper (StudentContext.tsx): build the new record and
dispatch `ADD_STUDENT`. -/
def addStudent (s : StudentState) (d : StudentDraft) (freshId : Str) (now : Nat) : StudentState :=
  studentReducer s (.ADD_STUDENT (newStudent d freshId now))

/-- The `updateStudent` helper (StudentContext.tsx): refresh `updatedAt` and
dispatch `UPDATE_STUDENT`. -/
def updateStudent (s : StudentState) (student : Student) (now : Nat) : StudentState :=
  studentReducer s (.UPDATE_STUDENT (updatedStudent student now))

/-- The `deleteStudent` helper (StudentContext.tsx). -/
def deleteStudent (s : StudentState) (id : Str) : StudentState :=
  studentReducer s (.DELETE_STUDENT id)

/-- The `getFilteredStudents` function (StudentContext.tsx): the derived projection. -/
def getFilteredStudents (s : StudentState) : List Student :=
  s.students.filter (fun student =>
    let matchesSearch :=
      jsIncludes (jsToLower student.name) (jsToLower s.searchTerm) ||
      jsIncludes (jsToLower student.email) (jsToLower s.searchTerm)
    let matchesCourse :=
      (s.selectedCourseFilter = none : Bool) ||
      (s.selectedCourseFilter = some student.courseId : Bool)
    matchesSearch && matchesCourse)

/-- The `StudentFormData` interface (src/types/index.ts): all fields are strings as they
come from form inputs. -/
structure StudentFormData where
  name : Str
  email : Str
  courseId : Str
  profileImage : Str
deriving DecidableEq, Repr

/-- The `ValidationErrors` shape (src/types/index.ts): one optional message per
validated field; an absent key means no error.  The JavaScript object is
an open record whose only possible keys are these three, so a fixed-shape
record with `Option` fields is an exact model. -/
structure ValidationErrors where
  name : Option Str := none
  email : Option Str := none
  courseId : Option Str := none
deriving DecidableEq, Repr

/-- The character class `[^\s@]` of the email regex. -/
def okChar (c : Char) : Bool := !jsIsWs c && !(c = '@' : Bool)

/-- Whether `rest` can be split as `[^\s@]+ "." [^\s@]+`: since `'.'` itself lies
in `[^\s@]`, this holds exactly when some `'.'` occurs at a position that
is neither the first nor the last of `rest`. -/
def hasInteriorDot (rest : Str) : Bool :=
  ((rest.drop 1).dropLast).any (fun c => c = '.')

/-- The `isValidEmail` function (validation.ts): tests the anchored email-shape regex
against `email.trim()`.  The `[^\s@]+` before the `@` cannot skip an `@`,
so the regex's `@` is the first `@` of the string; the part after it must
consist of `[^\s@]` characters and contain an interior dot. -/
def isValidEmail (email : Str) : Bool :=
  let t := jsTrim email
  let localPart := t.takeWhile (fun c => !(c = '@' : Bool))
  match t.dropWhile (fun c => !(c = '@' : Bool)) with
  | '@' :: domainPart =>
      !localPart.isEmpty && localPart.all okChar &&
      domainPart.all okChar && hasInteriorDot domainPart
  | _ => false

/-- The `validateStudent` function (validation.ts): the synchronous structural phase.
Each field's checks mirror the source's if/else-if chains. -/
def validateStudent (formData : StudentFormData) : ValidationErrors :=
  let nameErr : Option Str :=
    if (jsTrim formData.name).isEmpty then some (str "Name is required")
    else if (jsTrim formData.name).length < 2 then some (str "Name must be at least 2 characters")
    else if (jsTrim formData.name).length > 50 then some (str "Name must be less than 50 characters")
    else none
  let emailErr : Option Str :=
    if (jsTrim formData.email).isEmpty then some (str "Email is required")
    else if !isValidEmail formData.email then some (str "Please enter a valid email address")
    else none
  let courseErr : Option Str :=
    if formData.courseId.isEmpty || (formData.courseId = str "0" : Bool) then
      some (str "Please select a course")
    else none
  { name := nameErr, email := emailErr, courseId := courseErr }

/-- The `hasValidationErrors` function (validation.ts): `Object.keys(errors).length > 0`,
i.e. at least one field carries a message. -/
def hasValidationErrors (errors : ValidationErrors) : Bool :=
  errors.name.isSome || errors.email.isSome || errors.courseId.isSome

/-- The fixed denylist `existingEmails` of `validateStudentOnServer`
(mockApi.ts). -/
def existingEmails : List Str := [str "test@example.com", str "admin@test.com"]

/-- The `validateStudentOnServer` function (mockApi.ts): the simulated remote phase.
The microtask- and timer-queued steps only affect timing and logging; the
resolved outcome is a function of the draft alone: it rejects exactly when
the lower-cased email is in the denylist.  It takes no store and returns
only a verdict, so it cannot mutate the entity store. -/
def validateStudentOnServer (studentData : StudentDraft) : Except Str Unit :=
  if jsToLower studentData.email ∈ existingEmails then
    .error (str "A student with this email already exists")
  else
    .ok ()

/-!
`useDebounce` (useDebounce.ts): each change of the input value at time `t`
clears the pending timer (the effect cleanup runs `clearTimeout`) and
arms a new timer that fires at `t + delay`, emitting the value.  A timeline
of value changes is a list of `(time, value)` pairs in increasing time
order; emissions are the timer firings.  A pending timer armed for time
`ft` fires iff it reaches `ft` strictly before the next value change; at
the end of the timeline the pending timer, if any, fires.
-/

/-- Run the debounce timer machine over the remaining value changes,
given the currently pending timer (firing time, value). -/
def debounceRun {α : Type} (delay : Nat) :
    List (Nat × α) → Option (Nat × α) → List (Nat × α)
  | [], none => []
  | [], some e => [e]
  | (t, v) :: rest, none => debounceRun delay rest (some (t + delay, v))
  | (t, v) :: rest, some (ft, fv) =>
      if ft < t then (ft, fv) :: debounceRun delay rest (some (t + delay, v))
      else debounceRun delay rest (some (t + delay, v))

/-- The emissions produced by `useDebounce` for a timeline of value
changes. -/
def debounceEmissions {α : Type} (delay : Nat) (events : List (Nat × α)) :
    List (Nat × α) :=
  debounceRun delay events none

/-- One operation of the store's mutation API (the `addStudent`,
`updateStudent`, `deleteStudent` helpers).  `add` carries the id produced
by `crypto.randomUUID()` and the clock reading; `update` carries the clock
reading used to refresh `updatedAt`. -/
inductive StoreOp where
  | add (d : StudentDraft) (freshId : Str) (now : Nat)
  | update (p : Student) (now : Nat)
  | delete (id : Str)
deriving DecidableEq, Repr

/-- Apply one mutation helper to the store state. -/
def applyOp (s : StudentState) : StoreOp → StudentState
  | .add d freshId now => addStudent s d freshId now
  | .update p now => updateStudent s p now
  | .delete id => deleteStudent s id

/-- Run a sequence of mutation helpers from the initial (empty) state. -/
def runOps (ops : List StoreOp) : StudentState :=
  ops.foldl applyOp initialState

/-- Every `add` in the sequence uses an id not currently present:
the model of `crypto.randomUUID()` returning a fresh id each time. -/
def freshRun : StudentState → List StoreOp → Bool
  | _, [] => true
  | s, op :: rest =>
      (match op with
       | .add _ freshId _ => decide (freshId ∉ s.students.map Student.id)
       | _ => true) && freshRun (applyOp s op) rest

section Fixtures

/-- The "Ann" record of the spec's worked example. -/
def annStudent : Student :=
  { id := str "id-ann", name := str "Ann", email := str "a@x.com",
    courseId := 1, createdAt := 0, updatedAt := 0 }

/-- The "Bob" record of the spec's worked example. -/
def bobStudent : Student :=
  { id := str "id-bob", name := str "Bob", email := str "b@x.com",
    courseId := 2, createdAt := 0, updatedAt := 0 }

/-- Store state holding Ann and Bob with given filters. -/
def exampleState (term : Str) (course : Option Nat) : StudentState :=
  { students := [annStudent, bobStudent], searchTerm := term,
    selectedCourseFilter := course }

/-- A record whose id matches nothing in `exampleState`. -/
def ghostStudent : Student :=
  { id := str "id-ghost", name := str "Zed", email := str "z@x.com",
    courseId := 3, createdAt := 7, updatedAt := 7 }

/-- A sample run of the mutation API: two adds with distinct fresh ids,
an update of the first record, a delete of the second. -/
def opsExample : List StoreOp :=
  [ .add { name := str "Ann", email := str "a@x.com", courseId := 1 } (str "u1") 10,
    .add { name := str "Bob", email := str "b@x.com", courseId := 2 } (str "u2") 20,
    .update { id := str "u1", name := str "Anne", email := str "a@x.com",
              courseId := 1, createdAt := 10, updatedAt := 10 } 30,
    .delete (str "u2") ]

/-- A form with an empty name and otherwise valid fields. -/
def emptyNameForm : StudentFormData :=
  { name := str "", email := str "a@b.c", courseId := str "1", profileImage := str "" }

/-- A form whose email carries surrounding whitespace. -/
def paddedEmailForm : StudentFormData :=
  { name := str "Jo", email := str " a@b.c ", courseId := str "1", profileImage := str "" }

/-- A draft whose email is a denylisted address padded with whitespace. -/
def paddedDeniedDraft : StudentDraft :=
  { name := str "X", email := str " test@example.com ", courseId := 1 }

/-- A draft whose email is exactly a denylisted address. -/
def deniedDraft : StudentDraft :=
  { name := str "X", email := str "test@example.com", courseId := 1 }

end Fixtures

end StudentDashboard

namespace StudentDashboard

-- sanity examples (concrete evaluation)
example : str "an" = ['a', 'n'] := by decide
example : jsTrim (str "  hi ") = str "hi" := by decide
example : jsIncludes (jsToLower (str "Ann")) (jsToLower (str "an")) = true := by decide
example : jsIncludes (str "ann") (str "") = true := by decide
example : isValidEmail (str "a@b.c") = true := by decide
example : isValidEmail (str " a@b.c ") = true := by decide
example : isValidEmail (str "a@b") = false := by decide
example : isValidEmail (str "a@.c") = false := by decide
example : isValidEmail (str "a@b.") = false := by decide
example : isValidEmail (str "@b.c") = false := by decide
example : isValidEmail (str "a b@b.c") = false := by decide
example : isValidEmail (str "a@b.c.d") = true := by decide
example : validateStudent { name := str "Jo", email := str "a@b.c", courseId := str "1", profileImage := str "" } = {} := by decide
example : (validateStudent { name := str "", email := str "a@b.c", courseId := str "1", profileImage := str "" }).name = some (str "Name is required") := by decide
example : validateStudentOnServer { name := str "X", email := str "Test@Example.com", courseId := 1 } = .error (str "A student with this email already exists") := by decide
example : debounceEmissions 300 [(0, str "a"), (50, str "ab"), (100, str "abc")] = [(400, str "abc")] := by decide
example : getFilteredStudents (exampleState (str "an") none) = [annStudent] := by decide
example : getFilteredStudents (exampleState (str "") (some 2)) = [bobStudent] := by decide
example : getFilteredStudents (exampleState (str "z") none) = [] := by decide

/-- Including the empty string is always `true`, as in JavaScript. -/
lemma jsIncludes_nil (l : Str) : jsIncludes l [] = true := by
  cases l <;> simp [jsIncludes, List.isPrefixOf]

/-- Membership in the projection, exactly as the filter predicate of
`getFilteredStudents` decides it. -/
lemma mem_getFilteredStudents (s : StudentState) (r : Student) :
    r ∈ getFilteredStudents s ↔
      r ∈ s.students ∧
      (jsIncludes (jsToLower r.name) (jsToLower s.searchTerm) = true ∨
        jsIncludes (jsToLower r.email) (jsToLower s.searchTerm) = true) ∧
      (s.selectedCourseFilter = none ∨ s.selectedCourseFilter = some r.courseId) := by
  simp only [getFilteredStudents, List.mem_filter, Bool.and_eq_true, Bool.or_eq_true,
    decide_eq_true_eq]

/-- C1: the projection returns exactly the records satisfying the
conjunction of the search predicate (vacuous for the empty term) and the
course predicate, preserves the insertion order of the record set
(it is a sublist of it), and on the spec's worked example produces
exactly `[Ann]`, `[Bob]` and `[]` respectively. -/
theorem claim_C1_projection :
    (∀ (s : StudentState) (r : Student),
      r ∈ getFilteredStudents s ↔
        r ∈ s.students ∧
        (s.searchTerm = [] ∨
          jsIncludes (jsToLower r.name) (jsToLower s.searchTerm) = true ∨
          jsIncludes (jsToLower r.email) (jsToLower s.searchTerm) = true) ∧
        (s.selectedCourseFilter = none ∨ s.selectedCourseFilter = some r.courseId)) ∧
    (∀ s : StudentState, (getFilteredStudents s).Sublist s.students) ∧
    getFilteredStudents (exampleState (str "an") none) = [annStudent] ∧
    getFilteredStudents (exampleState (str "") (some 2)) = [bobStudent] ∧
    getFilteredStudents (exampleState (str "z") none) = [] := by
  refine ⟨?_, ?_, by decide, by decide, by decide⟩
  · intro s r
    rw [mem_getFilteredStudents]
    have hE : s.searchTerm = [] →
        jsIncludes (jsToLower r.name) (jsToLower s.searchTerm) = true := by
      intro h
      rw [h]
      exact jsIncludes_nil _
    tauto
  · intro s
    exact List.filter_sublist s.students

/-- C8 counterexample: the code does not trim the search term.  With the
stored record "Ann", the term `"ann "` (trailing space) yields the empty
projection while its trimmed form `"ann"` yields `[Ann]`, so the
projection for a term differs from the projection for its trimmed form. -/
theorem claim_C8_counterexample :
    jsTrim (str "ann ") = str "ann" ∧
    getFilteredStudents (exampleState (str "ann ") none) = [] ∧
    getFilteredStudents (exampleState (str "ann") none) = [annStudent] := by
  decide

/-- C8 amended: the search term is used untrimmed, just like the stored
fields: a record is in the projection exactly when its raw lower-cased
name or email contains the raw lower-cased term (and the course filter
matches). -/
theorem claim_C8_amended (s : StudentState) (r : Student) :
    r ∈ getFilteredStudents s ↔
      r ∈ s.students ∧
      (jsIncludes (jsToLower r.name) (jsToLower s.searchTerm) = true ∨
        jsIncludes (jsToLower r.email) (jsToLower s.searchTerm) = true) ∧
      (s.selectedCourseFilter = none ∨ s.selectedCourseFilter = some r.courseId) :=
  mem_getFilteredStudents s r

/-- C4: update and delete of an unknown id are silent no-ops: if no record
in the state carries the payload's id, the `UPDATE_STUDENT` and
`DELETE_STUDENT` transitions leave the record set unchanged (the reducer
is a total function, so no exception occurs; equality of lists rules out
duplicates and removals). -/
theorem claim_C4_unknown_id_noop (s : StudentState) (p : Student) (delId : Str)
    (hu : ∀ r ∈ s.students, r.id ≠ p.id) (hd : ∀ r ∈ s.students, r.id ≠ delId) :
    (studentReducer s (.UPDATE_STUDENT p)).students = s.students ∧
    (studentReducer s (.DELETE_STUDENT delId)).students = s.students := by
  constructor
  · show s.students.map _ = s.students
    have h : s.students.map (fun student => if student.id = p.id then p else student)
        = s.students.map id := by
      apply List.map_congr_left
      intro r hr
      simp [hu r hr]
    rw [h, List.map_id]
  · show s.students.filter _ = s.students
    rw [List.filter_eq_self]
    intro r hr
    simp [hd r hr]

/-- Witness for C4 at a concrete state and unknown id. -/
theorem claim_C4_witness :
    (studentReducer (exampleState [] none) (.UPDATE_STUDENT ghostStudent)).students
        = (exampleState [] none).students ∧
    (studentReducer (exampleState [] none) (.DELETE_STUDENT (str "id-ghost"))).students
        = (exampleState [] none).students :=
  claim_C4_unknown_id_noop (exampleState [] none) ghostStudent (str "id-ghost")
    (by decide) (by decide)

/-- C6: `addStudent` builds its record with `createdAt = updatedAt` (the
two `new Date()` calls read the same instant of the synchronous block);
an update performed at a strictly later instant on a record satisfying
`createdAt ≤ updatedAt` yields `updatedAt ≥ createdAt` and an `updatedAt`
strictly greater than before the update. -/
theorem claim_C6_timestamps :
    (∀ (d : StudentDraft) (freshId : Str) (now : Nat),
      (newStudent d freshId now).createdAt = (newStudent d freshId now).updatedAt) ∧
    (∀ (r : Student) (now : Nat), r.createdAt ≤ r.updatedAt → r.updatedAt < now →
      (updatedStudent r now).createdAt ≤ (updatedStudent r now).updatedAt ∧
      r.updatedAt < (updatedStudent r now).updatedAt) := by
  refine ⟨fun _ _ _ => rfl, fun r now h1 h2 => ?_⟩
  simp only [updatedStudent]
  omega

/-- Witness for C6 at a concrete record and later clock reading. -/
theorem claim_C6_witness :
    (updatedStudent annStudent 5).createdAt ≤ (updatedStudent annStudent 5).updatedAt ∧
    annStudent.updatedAt < (updatedStudent annStudent 5).updatedAt :=
  claim_C6_timestamps.2 annStudent 5 (by decide) (by decide)

/-- C9 counterexample: the store's public API also carries the
`LOAD_STUDENTS` transition (and `dispatch` itself is exported), which
introduces records into the record set without an Add: loading `[Ann]`
into the empty initial state yields a non-empty record set. -/
theorem claim_C9_counterexample :
    (studentReducer initialState (.LOAD_STUDENTS [annStudent])).students = [annStudent] ∧
    initialState.students = [] := by
  decide

/-- C9 amended: the record set is changed only by the `ADD_STUDENT`,
`UPDATE_STUDENT`, `DELETE_STUDENT` and `LOAD_STUDENTS` transitions; the
two filter setters never touch it. -/
theorem claim_C9_amended (s : StudentState) (a : StudentAction)
    (h : (studentReducer s a).students ≠ s.students) :
    (∃ p, a = .ADD_STUDENT p) ∨ (∃ p, a = .UPDATE_STUDENT p) ∨
    (∃ i, a = .DELETE_STUDENT i) ∨ (∃ l, a = .LOAD_STUDENTS l) := by
  cases a with
  | ADD_STUDENT p => exact Or.inl ⟨p, rfl⟩
  | UPDATE_STUDENT p => exact Or.inr (Or.inl ⟨p, rfl⟩)
  | DELETE_STUDENT i => exact Or.inr (Or.inr (Or.inl ⟨i, rfl⟩))
  | LOAD_STUDENTS l => exact Or.inr (Or.inr (Or.inr ⟨l, rfl⟩))
  | SET_SEARCH_TERM t => exact absurd rfl h
  | SET_COURSE_FILTER c => exact absurd rfl h

/-- Witness for C9 amended: an `ADD_STUDENT` changing the record set. -/
theorem claim_C9_witness :
    (∃ p, StudentAction.ADD_STUDENT annStudent = StudentAction.ADD_STUDENT p) ∨
    (∃ p, StudentAction.ADD_STUDENT annStudent = StudentAction.UPDATE_STUDENT p) ∨
    (∃ i, StudentAction.ADD_STUDENT annStudent = StudentAction.DELETE_STUDENT i) ∨
    (∃ l, StudentAction.ADD_STUDENT annStudent = StudentAction.LOAD_STUDENTS l) :=
  claim_C9_amended initialState (.ADD_STUDENT annStudent) (by decide)

/-- C3: the remote phase fails with the single terminal duplicate-email
error iff the lower-cased submitted email is in the fixed denylist; it
rejects "test@example.com" and succeeds for every draft whose lower-cased
email is not denylisted.  It is a function of the draft alone and neither
takes nor returns store state, so it never mutates the entity store. -/
theorem claim_C3_remote_denylist :
    (∀ d : StudentDraft,
      validateStudentOnServer d = .error (str "A student with this email already exists") ↔
        jsToLower d.email ∈ existingEmails) ∧
    validateStudentOnServer { name := str "X", email := str "test@example.com", courseId := 1 }
        = .error (str "A student with this email already exists") ∧
    (∀ d : StudentDraft, jsToLower d.email ∉ existingEmails →
        validateStudentOnServer d = .ok ()) := by
  refine ⟨fun d => ?_, by decide, fun d hd => ?_⟩
  · rw [validateStudentOnServer]
    split_ifs with h
    · simp [h]
    · simp [h]
  · rw [validateStudentOnServer, if_neg hd]

/-- Witness for C3 at a concrete non-denylisted draft. -/
theorem claim_C3_witness :
    validateStudentOnServer { name := str "Y", email := str "y@x.com", courseId := 2 }
        = .ok () :=
  claim_C3_remote_denylist.2.2
    { name := str "Y", email := str "y@x.com", courseId := 2 } (by decide)

/-- A pending debounce timer survives a rapid run (every gap at most the
delay): only the final value is emitted, at the last change time plus the
delay. -/
lemma debounceRun_rapid {α : Type} (delay : Nat) :
    ∀ (evs : List (Nat × α)) (t : Nat) (v : α),
      List.Chain' (fun a b : Nat × α => b.1 ≤ a.1 + delay) ((t, v) :: evs) →
      debounceRun delay evs (some (t + delay, v)) =
        [((((t, v) :: evs).getLast (List.cons_ne_nil _ _)).1 + delay,
          (((t, v) :: evs).getLast (List.cons_ne_nil _ _)).2)] := by
  intro evs
  induction evs with
  | nil =>
      intro t v _
      rfl
  | cons hd rest ih =>
      intro t v hch
      obtain ⟨t', v'⟩ := hd
      rw [List.chain'_cons] at hch
      have hle : t' ≤ t + delay := hch.1
      rw [debounceRun, if_neg (by omega)]
      rw [ih t' v' hch.2]
      rw [List.getLast_cons_cons]

/-- C5: debouncing the spec's timeline `"a"`@0, `"ab"`@50, `"abc"`@100
with delay 300 produces exactly one emission, `("abc", t=400)` (so none
before 400); in general, any rapid run (each change within the delay of
the previous) collapses to a single emission of the most recent value at
its change time plus the delay. -/
theorem claim_C5_debounce :
    debounceEmissions 300 [(0, str "a"), (50, str "ab"), (100, str "abc")]
        = [(400, str "abc")] ∧
    (∀ (delay t : Nat) (v : Str) (evs : List (Nat × Str)),
      List.Chain' (fun a b : Nat × Str => b.1 ≤ a.1 + delay) ((t, v) :: evs) →
      debounceEmissions delay ((t, v) :: evs) =
        [((((t, v) :: evs).getLast (List.cons_ne_nil _ _)).1 + delay,
          (((t, v) :: evs).getLast (List.cons_ne_nil _ _)).2)]) := by
  refine ⟨by decide, fun delay t v evs hch => ?_⟩
  rw [debounceEmissions, debounceRun]
  exact debounceRun_rapid delay evs t v hch

/-- Witness for C5 on a concrete rapid run of two changes. -/
theorem claim_C5_witness :
    debounceEmissions 300 [(0, str "a"), (50, str "ab")] = [(350, str "ab")] :=
  claim_C5_debounce.2 300 0 (str "a") [(50, str "ab")]
    (List.chain'_pair.mpr (by norm_num))

/-- The `UPDATE_STUDENT` transition never changes the sequence of record ids. -/
lemma ids_update (s : StudentState) (p : Student) :
    (studentReducer s (.UPDATE_STUDENT p)).students.map Student.id
      = s.students.map Student.id := by
  show (s.students.map _).map Student.id = _
  rw [List.map_map]
  apply List.map_congr_left
  intro r _
  by_cases h : r.id = p.id
  · simp [Function.comp, h]
  · simp [Function.comp, h]

/-- Along any run of the mutation helpers whose adds use fresh ids, the
record ids stay pairwise distinct. -/
lemma runOps_ids_nodup :
    ∀ (ops : List StoreOp) (s : StudentState),
      (s.students.map Student.id).Nodup → freshRun s ops = true →
      ((ops.foldl applyOp s).students.map Student.id).Nodup := by
  intro ops
  induction ops with
  | nil =>
      intro s h _
      simpa using h
  | cons op rest ih =>
      intro s h hf
      cases op with
      | add d fid now =>
          simp only [freshRun, Bool.and_eq_true] at hf
          have hfresh : fid ∉ s.students.map Student.id := of_decide_eq_true hf.1
          rw [List.foldl_cons]
          refine ih _ ?_ hf.2
          show ((s.students ++ [newStudent d fid now]).map Student.id).Nodup
          rw [List.map_append]
          simp [List.nodup_append, h, newStudent, hfresh]
      | update p now =>
          simp only [freshRun, Bool.and_eq_true] at hf
          rw [List.foldl_cons]
          refine ih _ ?_ hf.2
          show ((studentReducer s (.UPDATE_STUDENT (updatedStudent p now))).students.map
            Student.id).Nodup
          rw [ids_update]
          exact h
      | delete i =>
          simp only [freshRun, Bool.and_eq_true] at hf
          rw [List.foldl_cons]
          refine ih _ ?_ hf.2
          have hs : List.Sublist (studentReducer s (.DELETE_STUDENT i)).students s.students :=
            List.filter_sublist s.students
          exact h.sublist (hs.map Student.id)

/-- C7: id uniqueness and stability: the `UPDATE_STUDENT` transition
never changes any record's id (the id sequence is untouched), and along
every run of Add/Update/Delete from the empty store whose adds assign
fresh ids, all record ids in the resulting record set are distinct. -/
theorem claim_C7_id_invariant :
    (∀ (s : StudentState) (p : Student),
      (studentReducer s (.UPDATE_STUDENT p)).students.map Student.id
        = s.students.map Student.id) ∧
    (∀ ops : List StoreOp, freshRun initialState ops = true →
      ((runOps ops).students.map Student.id).Nodup) :=
  ⟨ids_update, fun ops hf => runOps_ids_nodup ops initialState (by simp [initialState]) hf⟩

/-- Witness for C7 on a concrete run of two adds, an update and a delete. -/
theorem claim_C7_witness :
    ((runOps opsExample).students.map Student.id).Nodup :=
  claim_C7_id_invariant.2 opsExample (by decide)

/-- If `dropWhile p` fixes a cons cell, its head fails `p`. -/
lemma head_not_of_dropWhile_fix {p : Char → Bool} {x : Char} {s : List Char}
    (h : List.dropWhile p (x :: s) = x :: s) : p x = false := by
  by_cases hx : p x
  · rw [List.dropWhile_cons, if_pos hx] at h
    have hlen : (List.dropWhile p s).length ≤ s.length :=
      (List.dropWhile_suffix p).length_le
    rw [h] at hlen
    simp at hlen
  · simpa using hx

/-- Trimming is idempotent. -/
lemma jsTrim_idem (l : Str) : jsTrim (jsTrim l) = jsTrim l := by
  have hpre : (List.dropWhile jsIsWs (List.dropWhile jsIsWs l).reverse).reverse
      <+: List.dropWhile jsIsWs l := by
    have hs := List.dropWhile_suffix (l := (List.dropWhile jsIsWs l).reverse) jsIsWs
    have h2 := List.reverse_prefix.mpr hs
    rwa [List.reverse_reverse] at h2
  have hfix : List.dropWhile jsIsWs (jsTrim l) = jsTrim l := by
    rw [jsTrim]
    cases hBr : (List.dropWhile jsIsWs (List.dropWhile jsIsWs l).reverse).reverse with
    | nil => simp
    | cons x s =>
        obtain ⟨t, ht⟩ := hpre
        rw [hBr, List.cons_append] at ht
        have hx : jsIsWs x = false := by
          apply head_not_of_dropWhile_fix (s := s ++ t)
          rw [ht]
          exact List.dropWhile_idempotent _ _
        rw [List.dropWhile_cons, hx]
        simp
  calc jsTrim (jsTrim l)
      = ((List.dropWhile jsIsWs (jsTrim l)).reverse.dropWhile jsIsWs).reverse := rfl
    _ = ((jsTrim l).reverse.dropWhile jsIsWs).reverse := by rw [hfix]
    _ = ((List.dropWhile jsIsWs (List.dropWhile jsIsWs l).reverse).reverse.reverse.dropWhile
          jsIsWs).reverse := rfl
    _ = ((List.dropWhile jsIsWs (List.dropWhile jsIsWs l).reverse).dropWhile jsIsWs).reverse := by
          rw [List.reverse_reverse]
    _ = (List.dropWhile jsIsWs (List.dropWhile jsIsWs l).reverse).reverse := by
          rw [List.dropWhile_idempotent]
    _ = jsTrim l := rfl

/-- A valid email has a nonempty trimmed form. -/
lemma isValidEmail_trim_ne_nil {e : Str} (h : isValidEmail e = true) : jsTrim e ≠ [] := by
  intro h0
  simp [isValidEmail, h0] at h

/-- The name message computed by `validateStudent`. -/
lemma validateStudent_name (fd : StudentFormData) :
    (validateStudent fd).name =
      (if (jsTrim fd.name).isEmpty then some (str "Name is required")
       else if (jsTrim fd.name).length < 2 then some (str "Name must be at least 2 characters")
       else if (jsTrim fd.name).length > 50 then some (str "Name must be less than 50 characters")
       else none) := rfl

/-- The email message computed by `validateStudent`. -/
lemma validateStudent_email (fd : StudentFormData) :
    (validateStudent fd).email =
      (if (jsTrim fd.email).isEmpty then some (str "Email is required")
       else if !isValidEmail fd.email then some (str "Please enter a valid email address")
       else none) := rfl

/-- The course message computed by `validateStudent`. -/
lemma validateStudent_course (fd : StudentFormData) :
    (validateStudent fd).courseId =
      (if fd.courseId.isEmpty || (fd.courseId = str "0" : Bool) then
        some (str "Please select a course")
       else none) := rfl

/-- C2: the structural phase accepts exactly when the trimmed name length
is in [2,50], the email matches the `local@domain.tld`-shape pattern, and
the courseId is present and not the sentinel "0"; each failing field
carries a message (an empty name carries the name-required message). -/
theorem claim_C2_structural (fd : StudentFormData) :
    ((validateStudent fd).name = none ↔
        2 ≤ (jsTrim fd.name).length ∧ (jsTrim fd.name).length ≤ 50) ∧
    ((validateStudent fd).email = none ↔ isValidEmail fd.email = true) ∧
    ((validateStudent fd).courseId = none ↔ fd.courseId ≠ [] ∧ fd.courseId ≠ str "0") ∧
    (validateStudent fd = {} ↔
        (2 ≤ (jsTrim fd.name).length ∧ (jsTrim fd.name).length ≤ 50) ∧
        isValidEmail fd.email = true ∧ fd.courseId ≠ [] ∧ fd.courseId ≠ str "0") ∧
    (jsTrim fd.name = [] → (validateStudent fd).name = some (str "Name is required")) := by
  have hname : (validateStudent fd).name = none ↔
      2 ≤ (jsTrim fd.name).length ∧ (jsTrim fd.name).length ≤ 50 := by
    rw [validateStudent_name]
    have hlen : (jsTrim fd.name).isEmpty = true ↔ (jsTrim fd.name).length = 0 := by
      rw [List.isEmpty_iff, List.length_eq_zero]
    split_ifs with h1 h2 h3
    · rw [hlen] at h1
      simp only [reduceCtorEq, false_iff]
      omega
    · simp only [reduceCtorEq, false_iff]
      omega
    · simp only [reduceCtorEq, false_iff]
      omega
    · rw [hlen] at h1
      simp only [true_iff]
      omega
  have hemail : (validateStudent fd).email = none ↔ isValidEmail fd.email = true := by
    rw [validateStudent_email]
    split_ifs with h1 h2
    · rw [List.isEmpty_iff] at h1
      simp only [reduceCtorEq, false_iff]
      intro h
      exact isValidEmail_trim_ne_nil h h1
    · rw [Bool.not_eq_true'] at h2
      simp [h2]
    · rw [Bool.not_eq_true', Bool.not_eq_false] at h2
      simp [h2]
  have hcourse : (validateStudent fd).courseId = none ↔
      fd.courseId ≠ [] ∧ fd.courseId ≠ str "0" := by
    rw [validateStudent_course]
    split_ifs with h1
    · simp only [Bool.or_eq_true, List.isEmpty_iff, decide_eq_true_eq] at h1
      simp only [reduceCtorEq, false_iff]
      tauto
    · simp only [Bool.or_eq_true, List.isEmpty_iff, decide_eq_true_eq] at h1
      push_neg at h1
      simp only [true_iff]
      exact h1
  have hsplit : validateStudent fd = ({} : ValidationErrors) ↔
      ((validateStudent fd).name = none ∧ (validateStudent fd).email = none ∧
        (validateStudent fd).courseId = none) := by
    constructor
    · intro h
      rw [h]
      exact ⟨rfl, rfl, rfl⟩
    · rintro ⟨h1, h2, h3⟩
      rcases hv : validateStudent fd with ⟨a, b, c⟩
      rw [hv] at h1 h2 h3
      simp only at h1 h2 h3
      rw [h1, h2, h3]
  refine ⟨hname, hemail, hcourse, ?_, ?_⟩
  · rw [hsplit, hname, hemail, hcourse]
  · intro h
    rw [validateStudent_name, if_pos (by rw [List.isEmpty_iff]; exact h)]

/-- Witness for C2: the empty name is rejected with the name-required
message. -/
theorem claim_C2_witness :
    (validateStudent emptyNameForm).name = some (str "Name is required") :=
  (claim_C2_structural emptyNameForm).2.2.2.2 (by decide)

/-- C10: `isValidEmail` trims its input before testing, so it is invariant
under trimming; the structural phase therefore accepts a padded email such
as `" a@b.c "`; the draft's email is stored untrimmed in the new record,
and the remote denylist comparison lower-cases but does not trim, so the
padded form of a denylisted email passes the remote check while the
trimmed form fails it. -/
theorem claim_C10_email_trim :
    (∀ e : Str, isValidEmail e = isValidEmail (jsTrim e)) ∧
    (validateStudent paddedEmailForm).email = none ∧
    (∀ (d : StudentDraft) (freshId : Str) (now : Nat),
      (newStudent d freshId now).email = d.email) ∧
    validateStudentOnServer paddedDeniedDraft = .ok () ∧
    validateStudentOnServer deniedDraft
      = .error (str "A student with this email already exists") := by
  refine ⟨fun e => ?_, by decide, fun _ _ _ => rfl, by decide, by decide⟩
  simp only [isValidEmail, jsTrim_idem]

end StudentDashboard
